import Mathlib

/-!
Shallow embedding of src/src/analyzer.py, a console quiz about soft skills.

Modelling choices:
- Python int is modelled by Int (scores, difficulty, user choices);
  list indices kept by the program itself (current_question_index) are Nat.
- Console input is modelled as a stream of already-parsed lines:
  List (Option Int), where none stands for a line that is not an integer
  (int(...) raises ValueError) and some n for the integer n.
- A constructor that can raise ValueError is modelled as a function into
  Except String.
- Printing is omitted; the final report keeps only the quantities the
  report computes (max score, percentage, qualitative band).
-/

/-- The QuestionType enumeration of the source (five fixed categories). -/
inductive QuestionType where
  | COMMUNICATION
  | TEAMWORK
  | LEADERSHIP
  | CONFLICT
  | FEEDBACK
deriving DecidableEq

/-- The Russian display value attached to each enumeration member. -/
def QuestionType.value : QuestionType → String
  | .COMMUNICATION => "Коммуникация"
  | .TEAMWORK => "Командная работа"
  | .LEADERSHIP => "Лидерство"
  | .CONFLICT => "Разрешение конфликтов"
  | .FEEDBACK => "Работа с обратной связью"

/-- The Answer dataclass: text, correctness flag, explanation (default empty). -/
structure Answer where
  text : String
  is_correct : Bool
  explanation : String := ""
deriving DecidableEq

/-- A constructed SoftSkillQuestion: the four fields the Python object stores. -/
structure SoftSkillQuestion where
  question_text : String
  answers : List Answer
  question_type : QuestionType
  difficulty : Int := 1
deriving DecidableEq

/-- Mirrors SoftSkillQuestion._validate_answers: true when at least one
answer has the correctness flag set. -/
def validate_answers (q : SoftSkillQuestion) : Bool :=
  q.answers.any (·.is_correct)

/-- The SoftSkillQuestion constructor: stores the fields, then raises
ValueError when no answer is correct.  The raise is modelled as Except.error. -/
def mkSoftSkillQuestion (question_text : String) (answers : List Answer)
    (question_type : QuestionType) (difficulty : Int := 1) :
    Except String SoftSkillQuestion :=
  let q : SoftSkillQuestion :=
    { question_text := question_text, answers := answers,
      question_type := question_type, difficulty := difficulty }
  if validate_answers q then Except.ok q
  else Except.error "Должен быть хотя бы один правильный ответ"

/-- Mirrors get_correct_answers: the answers whose flag is set, in order. -/
def get_correct_answers (q : SoftSkillQuestion) : List Answer :=
  q.answers.filter (·.is_correct)

/-- Placeholder element for in-range list reads (getD below is only ever
read at indices the surrounding guard has already bounded). -/
def answerDefault : Answer :=
  { text := "", is_correct := false, explanation := "" }

/-- Mirrors check_answer: in-range index reads the stored flag, any other
index (negative included) yields false; the Python code never raises here. -/
def check_answer (q : SoftSkillQuestion) (answer_index : Int) : Bool :=
  if 0 ≤ answer_index ∧ answer_index < (q.answers.length : Int) then
    (q.answers.getD answer_index.toNat answerDefault).is_correct
  else
    false

/-- The User object: name, cumulative score, answered-question history. -/
structure User where
  name : String
  score : Int
  answered_questions : List SoftSkillQuestion
deriving DecidableEq

/-- The User constructor: score 0 and empty history. -/
def User.make (name : String) : User :=
  { name := name, score := 0, answered_questions := [] }

/-- Mirrors User.add_score: score += points, with no sign check. -/
def User.add_score (u : User) (points : Int) : User :=
  { u with score := u.score + points }

/-- The question built by QuestionFactory.create_communication_question. -/
def communication_question : SoftSkillQuestion :=
  { question_text := "Как вы поступите, если коллега постоянно срывает сроки сдачи общей работы?",
    answers :=
      [ { text := "Сделаю работу за него, чтобы не подвести команду", is_correct := false,
          explanation := "Это может привести к выгоранию и не решает корень проблемы" },
        { text := "Открыто обсужу проблему с коллегой и предложу помощь", is_correct := true,
          explanation := "Прямая коммуникация помогает найти причины проблемы и совместно решить ее" },
        { text := "Немедленно доложу руководителю о ситуации", is_correct := false,
          explanation := "Сначала стоит попытаться решить вопрос напрямую с коллегой" } ],
    question_type := QuestionType.COMMUNICATION,
    difficulty := 2 }

/-- QuestionFactory.create_communication_question goes through the
validating constructor; its literal arguments are those of the source. -/
def create_communication_question : Except String SoftSkillQuestion :=
  mkSoftSkillQuestion communication_question.question_text
    communication_question.answers QuestionType.COMMUNICATION 2

/-- The question built by QuestionFactory.create_teamwork_question
(tagged CONFLICT in the source). -/
def teamwork_question : SoftSkillQuestion :=
  { question_text := "Во время совещания возникает конфликт между двумя членами команды. Ваши действия?",
    answers :=
      [ { text := "Прерву дискуссию и перенесу обсуждение на другое время", is_correct := false,
          explanation := "Может отложить, но не решить проблему" },
        { text := "Выслушаю обе стороны и предложу компромиссное решение", is_correct := true,
          explanation := "Активное посредничество помогает найти взаимоприемлемое решение" },
        { text := "Предоставлю участникам самостоятельно разобраться в конфликте", is_correct := false,
          explanation := "Без посредничества конфликт может усугубиться" } ],
    question_type := QuestionType.CONFLICT,
    difficulty := 3 }

/-- QuestionFactory.create_teamwork_question through the validating
constructor. -/
def create_teamwork_question : Except String SoftSkillQuestion :=
  mkSoftSkillQuestion teamwork_question.question_text
    teamwork_question.answers QuestionType.CONFLICT 3

/-- The third default question (feedback), built inline in
SoftSkillsQuiz._load_default_questions. -/
def feedback_question : SoftSkillQuestion :=
  { question_text := "Как вы будете действовать при получении негативной обратной связи о своей работе?",
    answers :=
      [ { text := "Защищаю свою позицию и объясню, почему поступил именно так", is_correct := false,
          explanation := "Защита может восприниматься как неготовность к развитию" },
        { text := "Выслушаю критику, задам уточняющие вопросы и разработаю план улучшений", is_correct := true,
          explanation := "Проактивный подход к обратной связи показывает зрелость и готовность развиваться" },
        { text := "Поблагодарю за обратную связь, но не буду менять свой подход к работе", is_correct := false,
          explanation := "Игнорирование обратной связи мешает профессиональному росту" } ],
    question_type := QuestionType.FEEDBACK,
    difficulty := 2 }

/-- Mirrors SoftSkillsQuiz._load_default_questions: the two factory
questions followed by the inline feedback question. -/
def load_default_questions : List SoftSkillQuestion :=
  [communication_question, teamwork_question, feedback_question]

/-- The SoftSkillsQuiz object: user, question list, current index. -/
structure SoftSkillsQuiz where
  user : User
  questions : List SoftSkillQuestion
  current_question_index : Nat
deriving DecidableEq

/-- The SoftSkillsQuiz constructor.  Python evaluates
questions or self._load_default_questions(): None and the empty list are
both falsy, so each falls back to the defaults. -/
def mkSoftSkillsQuiz (user : User)
    (questions : Option (List SoftSkillQuestion) := none) : SoftSkillsQuiz :=
  { user := user,
    questions :=
      match questions with
      | some qs => if qs.isEmpty then load_default_questions else qs
      | none => load_default_questions,
    current_question_index := 0 }

/-- Placeholder question for the bounded list read inside ask_question. -/
def questionDefault : SoftSkillQuestion :=
  { question_text := "", answers := [], question_type := QuestionType.COMMUNICATION,
    difficulty := 1 }

/-- The body of ask_question once a valid 1-based choice is made: look up
the selected answer, add difficulty * 10 on a correct selection (source
lines 177 to 196), advance the index, append the question to the history
regardless of correctness, and return the correctness flag. -/
def process_choice (s : SoftSkillsQuiz) (q : SoftSkillQuestion) (choice : Int) :
    Bool × SoftSkillsQuiz :=
  let selected := q.answers.getD (choice - 1).toNat answerDefault
  let user1 :=
    if selected.is_correct then s.user.add_score (q.difficulty * 10) else s.user
  let user2 :=
    { user1 with answered_questions := user1.answered_questions ++ [q] }
  (selected.is_correct,
   { s with user := user2,
            current_question_index := s.current_question_index + 1 })

/-- The while True input loop of ask_question: a non-numeric line (none)
re-prompts, a numeric line outside [1, answer count] re-prompts, the first
valid line is processed.  The result carries the unread remainder of the
stream; none means the stream ended before any valid line. -/
def ask_loop (s : SoftSkillsQuiz) (q : SoftSkillQuestion) :
    List (Option Int) → Option (Bool × SoftSkillsQuiz × List (Option Int))
  | [] => none
  | none :: rest => ask_loop s q rest
  | some choice :: rest =>
    if 1 ≤ choice ∧ choice ≤ (q.answers.length : Int) then
      let r := process_choice s q choice
      some (r.1, r.2, rest)
    else
      ask_loop s q rest

/-- Mirrors SoftSkillsQuiz.ask_question: with no questions left it returns
False at once and touches nothing; otherwise it runs the input loop on the
current question. -/
def ask_question (s : SoftSkillsQuiz) (inputs : List (Option Int)) :
    Option (Bool × SoftSkillsQuiz × List (Option Int)) :=
  if s.questions.length ≤ s.current_question_index then
    some (false, s, inputs)
  else
    ask_loop s (s.questions.getD s.current_question_index questionDefault) inputs

/-- Mirrors max_score in _show_results:
sum(q.difficulty * 10 for q in self.questions). -/
def max_score (s : SoftSkillsQuiz) : Int :=
  (s.questions.map (fun q => q.difficulty * 10)).sum

/-- Mirrors the percentage of _show_results:
(score / max_score * 100) if max_score > 0 else 0, as exact rationals. -/
def show_results_percentage (s : SoftSkillsQuiz) : Rat :=
  if 0 < max_score s then
    (s.user.score : Rat) / (max_score s : Rat) * 100
  else 0

/-- The three qualitative verdict bands of the final report. -/
inductive ResultBand where
  | topTier
  | encouraging
  | needsImprovement
deriving DecidableEq

/-- The band chosen at the end of _show_results: at least 80 percent is
top tier, at least 60 is encouraging, anything lower needs improvement. -/
def result_band (p : Rat) : ResultBand :=
  if 80 ≤ p then ResultBand.topTier
  else if 60 ≤ p then ResultBand.encouraging
  else ResultBand.needsImprovement

/-- The while loop of run_quiz, with fuel: while the index has not reached
the question count, ask the next question on the remaining stream.  Fuel
exhaustion and stream exhaustion are both modelled as none (the Python
loop would be blocked at input()). -/
def run_quiz_aux : Nat → SoftSkillsQuiz → List (Option Int) → Option SoftSkillsQuiz
  | 0, s, _ =>
    if s.current_question_index < s.questions.length then none else some s
  | fuel + 1, s, inputs =>
    if s.current_question_index < s.questions.length then
      match ask_question s inputs with
      | some (_, s2, rest) => run_quiz_aux fuel s2 rest
      | none => none
    else some s

/-- Mirrors run_quiz up to its final report: each completed ask_question
advances the index by one, so the remaining question count is enough fuel. -/
def run_quiz (s : SoftSkillsQuiz) (inputs : List (Option Int)) :
    Option SoftSkillsQuiz :=
  run_quiz_aux (s.questions.length - s.current_question_index) s inputs

/-- A session state used to evaluate theorems with hypotheses: the default
three questions already exhausted. -/
def finishedSession : SoftSkillsQuiz :=
  { mkSoftSkillsQuiz (User.make "Алексей") none with current_question_index := 3 }

/-- A session state with an empty question list (reachable only by hand,
never from the constructor), exercising the zero-denominator branch. -/
def emptySession : SoftSkillsQuiz :=
  { user := User.make "Empty", questions := [], current_question_index := 0 }

/-- A question that the validating constructor accepts although its
difficulty is 0, outside the difficulty range of the data model. -/
def zero_difficulty_question : SoftSkillQuestion :=
  { question_text := "q", answers := [{ text := "a", is_correct := true }],
    question_type := QuestionType.COMMUNICATION, difficulty := 0 }

/-- The session state reached from a fresh default session after one
ask_question call that selects choice 2. -/
def c3WitnessState : SoftSkillsQuiz :=
  (process_choice (mkSoftSkillsQuiz (User.make "W") none)
    communication_question 2).2

/-- The state at the end of the all-correct run over the default questions:
choice 2 is correct on each, worth 20 + 30 + 20 points. -/
def c7FinalState : SoftSkillsQuiz :=
  { user := { name := "Test", score := 70,
              answered_questions := load_default_questions },
    questions := load_default_questions,
    current_question_index := 3 }

/-- Every successful pass through the input loop is the processing of some
valid 1-based choice: the returned flag and state come from process_choice. -/
theorem ask_loop_eq_some (s : SoftSkillsQuiz) (q : SoftSkillQuestion)
    (inputs : List (Option Int)) :
    ∀ (b : Bool) (s2 : SoftSkillsQuiz) (rest : List (Option Int)),
      ask_loop s q inputs = some (b, s2, rest) →
      ∃ c : Int, (1 ≤ c ∧ c ≤ (q.answers.length : Int)) ∧
        b = (process_choice s q c).1 ∧ s2 = (process_choice s q c).2 := by
  induction inputs with
  | nil =>
    intro b s2 rest h
    simp [ask_loop] at h
  | cons x t ih =>
    intro b s2 rest h
    cases x with
    | none =>
      simp only [ask_loop] at h
      exact ih b s2 rest h
    | some c =>
      simp only [ask_loop] at h
      by_cases hc : 1 ≤ c ∧ c ≤ (q.answers.length : Int)
      · rw [if_pos hc] at h
        simp only [Option.some.injEq, Prod.mk.injEq] at h
        exact ⟨c, hc, h.1.symm, h.2.1.symm⟩
      · rw [if_neg hc] at h
        exact ih b s2 rest h

/-- process_choice adds difficulty * 10 exactly on a correct selection,
advances the index by one, appends the question to the history, and keeps
the question list. -/
theorem process_choice_spec (s : SoftSkillsQuiz) (q : SoftSkillQuestion)
    (c : Int) :
    (process_choice s q c).2.user.score =
      s.user.score + (if (process_choice s q c).1 then q.difficulty * 10 else 0) ∧
    (process_choice s q c).2.current_question_index =
      s.current_question_index + 1 ∧
    (process_choice s q c).2.user.answered_questions =
      s.user.answered_questions ++ [q] ∧
    (process_choice s q c).2.questions = s.questions := by
  unfold process_choice User.add_score
  by_cases h : (q.answers.getD (c - 1).toNat answerDefault).is_correct = true
  · simp only [h]
    simp
  · simp only [Bool.not_eq_true] at h
    simp only [h]
    simp

/-- Lines that are non-numeric or whose number is out of range are all
skipped by the input loop without any other effect. -/
theorem ask_loop_invalid (s : SoftSkillsQuiz) (q : SoftSkillQuestion)
    (pre : List (Option Int)) (l : List (Option Int))
    (hpre : ∀ x ∈ pre, x = none ∨ ∃ n : Int, x = some n ∧
      (n < 1 ∨ (q.answers.length : Int) < n)) :
    ask_loop s q (pre ++ l) = ask_loop s q l := by
  induction pre with
  | nil => rfl
  | cons x t ih =>
    have hx := hpre x (List.mem_cons_self x t)
    have ht : ∀ y ∈ t, y = none ∨ ∃ n : Int, y = some n ∧
        (n < 1 ∨ (q.answers.length : Int) < n) :=
      fun y hy => hpre y (List.mem_cons_of_mem x hy)
    rcases hx with hx | ⟨n, hn, hrange⟩
    · subst hx
      simp only [List.cons_append, ask_loop]
      exact ih ht
    · subst hn
      have hnot : ¬ (1 ≤ n ∧ n ≤ (q.answers.length : Int)) := by omega
      simp only [List.cons_append, ask_loop, if_neg hnot]
      exact ih ht

/-- Claim C1: check_answer returns false at every integer index outside
[0, answer count), negative indices included, and returns the stored
correctness flag of the indexed answer at every in-range index; being a
total function, it never raises. -/
theorem check_answer_spec (q : SoftSkillQuestion) (i : Int) :
    (i < 0 ∨ (q.answers.length : Int) ≤ i → check_answer q i = false) ∧
    (∀ _h1 : 0 ≤ i, ∀ h2 : i.toNat < q.answers.length,
      check_answer q i = (q.answers.get ⟨i.toNat, h2⟩).is_correct) := by
  constructor
  · intro h
    have hc : ¬ (0 ≤ i ∧ i < (q.answers.length : Int)) := by omega
    rw [check_answer, if_neg hc]
  · intro h1 h2
    have hc : 0 ≤ i ∧ i < (q.answers.length : Int) := by omega
    rw [check_answer, if_pos hc]
    congr 1
    rw [List.getD_eq_getElem?_getD, List.getElem?_eq_getElem h2]
    simp

/-- Witness for C1 on the first factory question: index -1 is out of range,
index 1 is in range and carries the flag of the second answer. -/
theorem check_answer_spec_witness :
    check_answer communication_question (-1) = false ∧
    check_answer communication_question 1 =
      (communication_question.answers.get ⟨(1 : Int).toNat, by decide⟩).is_correct :=
  ⟨(check_answer_spec communication_question (-1)).1 (Or.inl (by decide)),
   (check_answer_spec communication_question 1).2 (by decide) (by decide)⟩

/-- Claim C2: the constructor fails with a validation error exactly when no
given answer is marked correct, and with at least one correct answer it
returns an object whose four fields are the given arguments unchanged. -/
theorem mkSoftSkillQuestion_spec (t : String) (as : List Answer)
    (qt : QuestionType) (d : Int) :
    ((∃ e, mkSoftSkillQuestion t as qt d = Except.error e) ↔
      ∀ a ∈ as, a.is_correct = false) ∧
    ((∃ a ∈ as, a.is_correct = true) →
      mkSoftSkillQuestion t as qt d =
        Except.ok { question_text := t, answers := as, question_type := qt,
                    difficulty := d }) := by
  unfold mkSoftSkillQuestion validate_answers
  by_cases h : as.any (fun a => a.is_correct) = true
  · rw [if_pos h]
    constructor
    · constructor
      · rintro ⟨e, he⟩
        exact absurd he (by simp)
      · intro hall
        rcases List.any_eq_true.mp h with ⟨a, ha, hcorr⟩
        rw [hall a ha] at hcorr
        exact absurd hcorr (by simp)
    · intro _
      rfl
  · rw [if_neg h]
    constructor
    · constructor
      · intro _ a ha
        by_contra hcorr
        exact h (List.any_eq_true.mpr ⟨a, ha, by simpa using hcorr⟩)
      · intro _
        exact ⟨_, rfl⟩
    · rintro ⟨a, ha, hcorr⟩
      exact absurd (List.any_eq_true.mpr ⟨a, ha, hcorr⟩) h

/-- Witness for C2: an all-wrong answer list is rejected, a list with one
correct answer is accepted with the fields stored unchanged. -/
theorem mkSoftSkillQuestion_spec_witness :
    (∃ e, mkSoftSkillQuestion "q" [{ text := "a", is_correct := false }]
        QuestionType.COMMUNICATION 2 = Except.error e) ∧
    mkSoftSkillQuestion "q" [{ text := "a", is_correct := true }]
        QuestionType.COMMUNICATION 2 =
      Except.ok { question_text := "q",
                  answers := [{ text := "a", is_correct := true }],
                  question_type := QuestionType.COMMUNICATION,
                  difficulty := 2 } :=
  ⟨(mkSoftSkillQuestion_spec "q" [{ text := "a", is_correct := false }]
      QuestionType.COMMUNICATION 2).1.mpr (by simp),
   (mkSoftSkillQuestion_spec "q" [{ text := "a", is_correct := true }]
      QuestionType.COMMUNICATION 2).2 ⟨{ text := "a", is_correct := true },
        by simp, rfl⟩⟩

/-- Claim C4: when the current index has reached the question count,
ask_question returns false with the session and the input stream returned
unchanged, so score, history and index are untouched. -/
theorem ask_question_no_more (s : SoftSkillsQuiz) (inputs : List (Option Int))
    (h : s.questions.length ≤ s.current_question_index) :
    ask_question s inputs = some (false, s, inputs) := by
  rw [ask_question, if_pos h]

/-- Witness for C4: a default session whose three questions are exhausted. -/
theorem ask_question_no_more_witness :
    ask_question finishedSession [some 1] =
      some (false, finishedSession, [some 1]) :=
  ask_question_no_more finishedSession [some 1] (by decide)

/-- Claim C5: the report percentage is score divided by the sum of
difficulty * 10 over all configured questions, times 100, and a zero sum
yields exactly 0 instead of a division error. -/
theorem show_results_percentage_spec (s : SoftSkillsQuiz) :
    (max_score s = 0 → show_results_percentage s = 0) ∧
    (0 < max_score s →
      show_results_percentage s =
        (s.user.score : Rat) / (max_score s : Rat) * 100) := by
  constructor
  · intro h
    rw [show_results_percentage, if_neg]
    omega
  · intro h
    rw [show_results_percentage, if_pos h]

/-- Witness for C5: the zero-denominator branch on an empty question list
and the dividing branch on a fresh default session. -/
theorem show_results_percentage_spec_witness :
    (max_score emptySession = 0 ∧ show_results_percentage emptySession = 0) ∧
    (0 < max_score (mkSoftSkillsQuiz (User.make "A") none) ∧
      show_results_percentage (mkSoftSkillsQuiz (User.make "A") none) =
        ((mkSoftSkillsQuiz (User.make "A") none).user.score : Rat) /
          (max_score (mkSoftSkillsQuiz (User.make "A") none) : Rat) * 100) :=
  ⟨⟨by decide, (show_results_percentage_spec emptySession).1 (by decide)⟩,
   ⟨by decide, (show_results_percentage_spec
      (mkSoftSkillsQuiz (User.make "A") none)).2 (by decide)⟩⟩

/-- Claim C6 counterexample: add_score applies any integer argument, so a
negative argument strictly decreases the score: from the fresh score 0,
add_score (-1) yields score -1, below the previous value. -/
theorem add_score_negative_counterexample :
    ¬ ((User.make "A").score ≤ ((User.make "A").add_score (-1)).score) := by
  decide

/-- Claim C6 amended: add_score adds exactly its argument to the score, and
the score never decreases when the argument is non-negative; the program
only ever calls it with difficulty * 10 for the positive difficulties of
its own questions. -/
theorem add_score_spec (u : User) (points : Int) :
    (u.add_score points).score = u.score + points ∧
    (0 ≤ points → u.score ≤ (u.add_score points).score) := by
  exact ⟨rfl, fun h => le_add_of_nonneg_right h⟩

/-- Witness for the amended C6 at a program call site value, 20 points. -/
theorem add_score_spec_witness :
    ((User.make "B").add_score 20).score = (User.make "B").score + 20 ∧
    (User.make "B").score ≤ ((User.make "B").add_score 20).score :=
  ⟨(add_score_spec (User.make "B") 20).1,
   (add_score_spec (User.make "B") 20).2 (by decide)⟩

/-- Claim C3: whenever ask_question completes on a pending question, the
score grows by exactly difficulty * 10 of that question when the selected
answer is correct (the returned flag) and by 0 when it is incorrect. -/
theorem ask_question_score (s : SoftSkillsQuiz) (inputs : List (Option Int))
    (b : Bool) (s2 : SoftSkillsQuiz) (rest : List (Option Int))
    (hidx : s.current_question_index < s.questions.length)
    (h : ask_question s inputs = some (b, s2, rest)) :
    s2.user.score =
      s.user.score +
        (if b then
          (s.questions.getD s.current_question_index
            questionDefault).difficulty * 10
        else 0) := by
  rw [ask_question, if_neg (Nat.not_le.mpr hidx)] at h
  obtain ⟨c, _hc, hb, hs2⟩ :=
    ask_loop_eq_some s
      (s.questions.getD s.current_question_index questionDefault)
      inputs b s2 rest h
  subst hb
  subst hs2
  exact (process_choice_spec s _ c).1

/-- Witness for C3: a fresh default session answering choice 2 (correct, on
a difficulty 2 question) gains exactly 20 points. -/
theorem ask_question_score_witness :
    c3WitnessState.user.score =
      (mkSoftSkillsQuiz (User.make "W") none).user.score +
        (if true then
          ((mkSoftSkillsQuiz (User.make "W") none).questions.getD
            (mkSoftSkillsQuiz (User.make "W") none).current_question_index
            questionDefault).difficulty * 10
        else 0) :=
  ask_question_score (mkSoftSkillsQuiz (User.make "W") none) [some 2] true
    c3WitnessState [] (by decide) rfl

/-- Claim C7: the end-to-end session over the three default questions in
which choice 2 is selected each time ends with score 70, maximum possible
score 70, percentage exactly 100 and the top-tier verdict band. -/
theorem default_run_all_correct :
    (run_quiz (mkSoftSkillsQuiz (User.make "Test") none)
        [some 2, some 2, some 2]).map
      (fun s => (s.user.score, max_score s, show_results_percentage s,
                 result_band (show_results_percentage s))) =
      some (70, 70, 100, ResultBand.topTier) := by
  have hrun : run_quiz (mkSoftSkillsQuiz (User.make "Test") none)
      [some 2, some 2, some 2] = some c7FinalState := rfl
  have hscore : c7FinalState.user.score = 70 := rfl
  have hmax : max_score c7FinalState = 70 := rfl
  have hperc : show_results_percentage c7FinalState = 100 := by
    rw [show_results_percentage, if_pos (by rw [hmax]; norm_num), hscore, hmax]
    norm_num
  have hband : result_band (show_results_percentage c7FinalState) =
      ResultBand.topTier := by
    rw [hperc, result_band, if_pos (by norm_num)]
  rw [hrun]
  simp only [Option.map_some']
  rw [hscore, hmax, hband, hperc]

/-- Claim C8: within one ask_question call on a pending question, the
non-numeric and out-of-range lines before the first valid line have no
effect on the outcome, and the first valid line advances the index by
exactly one and appends the question to the history regardless of
correctness, the score changing only by that single selection. -/
theorem ask_question_retry (s : SoftSkillsQuiz) (pre : List (Option Int))
    (c : Int) (rest : List (Option Int))
    (hidx : s.current_question_index < s.questions.length)
    (hpre : ∀ x ∈ pre, x = none ∨ ∃ n : Int, x = some n ∧
      (n < 1 ∨ ((s.questions.getD s.current_question_index
        questionDefault).answers.length : Int) < n))
    (hc : 1 ≤ c ∧ c ≤ ((s.questions.getD s.current_question_index
      questionDefault).answers.length : Int)) :
    ask_question s (pre ++ some c :: rest) =
      ask_question s (some c :: rest) ∧
    ∃ b s2,
      ask_question s (pre ++ some c :: rest) = some (b, s2, rest) ∧
      s2.current_question_index = s.current_question_index + 1 ∧
      s2.user.answered_questions =
        s.user.answered_questions ++
          [s.questions.getD s.current_question_index questionDefault] ∧
      s2.user.score =
        s.user.score +
          (if b then
            (s.questions.getD s.current_question_index
              questionDefault).difficulty * 10
          else 0) := by
  have hguard := Nat.not_le.mpr hidx
  have hskip :
      ask_loop s (s.questions.getD s.current_question_index questionDefault)
        (pre ++ some c :: rest) =
      ask_loop s (s.questions.getD s.current_question_index questionDefault)
        (some c :: rest) :=
    ask_loop_invalid s _ pre _ hpre
  have hvalid :
      ask_loop s (s.questions.getD s.current_question_index questionDefault)
        (some c :: rest) =
      some ((process_choice s (s.questions.getD s.current_question_index
              questionDefault) c).1,
            (process_choice s (s.questions.getD s.current_question_index
              questionDefault) c).2, rest) := by
    simp only [ask_loop, if_pos hc]
  constructor
  · rw [ask_question, if_neg hguard, ask_question, if_neg hguard, hskip]
  · refine ⟨(process_choice s (s.questions.getD s.current_question_index
        questionDefault) c).1,
      (process_choice s (s.questions.getD s.current_question_index
        questionDefault) c).2, ?_, ?_, ?_, ?_⟩
    · rw [ask_question, if_neg hguard, hskip, hvalid]
    · exact (process_choice_spec s _ c).2.1
    · exact (process_choice_spec s _ c).2.2.1
    · exact (process_choice_spec s _ c).1

/-- Witness for C8, matching the spec scenario: a non-numeric line, the
out-of-range 99, then the valid 2 on the first default question. -/
theorem ask_question_retry_witness :
    (ask_question (mkSoftSkillsQuiz (User.make "T") none)
        ([none, some 99] ++ some 2 :: []) =
      ask_question (mkSoftSkillsQuiz (User.make "T") none) (some 2 :: []) ∧
    ∃ b s2,
      ask_question (mkSoftSkillsQuiz (User.make "T") none)
          ([none, some 99] ++ some 2 :: []) = some (b, s2, []) ∧
      s2.current_question_index =
        (mkSoftSkillsQuiz (User.make "T") none).current_question_index + 1 ∧
      s2.user.answered_questions =
        (mkSoftSkillsQuiz (User.make "T") none).user.answered_questions ++
          [(mkSoftSkillsQuiz (User.make "T") none).questions.getD
            (mkSoftSkillsQuiz (User.make "T") none).current_question_index
            questionDefault] ∧
      s2.user.score =
        (mkSoftSkillsQuiz (User.make "T") none).user.score +
          (if b then
            ((mkSoftSkillsQuiz (User.make "T") none).questions.getD
              (mkSoftSkillsQuiz (User.make "T") none).current_question_index
              questionDefault).difficulty * 10
          else 0)) :=
  ask_question_retry (mkSoftSkillsQuiz (User.make "T") none) [none, some 99] 2 []
    (by decide)
    (by
      intro x hx
      simp only [List.mem_cons, List.not_mem_nil, or_false] at hx
      rcases hx with h | h
      · exact Or.inl h
      · exact Or.inr ⟨99, h, Or.inr (by decide)⟩)
    (by decide)

/-- Claim C9 counterexample: the validating constructor accepts difficulty
0: it returns ok storing difficulty 0, which is below 1, so not every
constructed question has difficulty at least 1. -/
theorem zero_difficulty_accepted_counterexample :
    mkSoftSkillQuestion "q" [{ text := "a", is_correct := true }]
        QuestionType.COMMUNICATION 0 = Except.ok zero_difficulty_question ∧
    ¬ (1 ≤ zero_difficulty_question.difficulty) :=
  ⟨rfl, by decide⟩

/-- Claim C9 amended: construction validates only the answers, so a
difficulty below 1 is accepted and the data-model bound is left to the call
sites; every question the program itself builds, the three defaults and
hence both factory questions, has difficulty at least 1. -/
theorem default_questions_difficulty (q : SoftSkillQuestion)
    (h : q ∈ load_default_questions) : 1 ≤ q.difficulty := by
  simp only [load_default_questions, List.mem_cons, List.not_mem_nil,
    or_false] at h
  rcases h with h | h | h <;> subst h <;> decide

/-- Witness for the amended C9 at the communication question. -/
theorem default_questions_difficulty_witness :
    1 ≤ communication_question.difficulty :=
  default_questions_difficulty communication_question
    (by simp [load_default_questions])

/-- Claim C10 counterexample: the constructor also accepts a non-empty list
holding a single validated question of difficulty 0, producing a session
whose maximum possible score is 0, not strictly positive. -/
theorem quiz_zero_max_score_counterexample :
    ¬ (0 < max_score (mkSoftSkillsQuiz (User.make "B")
        (some [zero_difficulty_question]))) := by
  decide

/-- Claim C10 amended: passing none and passing the empty list both load
the three default questions; every constructed session has at least one
question; a default-loaded session has maximum possible score 70, strictly
positive, though caller-supplied questions of difficulty below 1 can give a
non-positive maximum. -/
theorem mkSoftSkillsQuiz_defaults (u : User)
    (oqs : Option (List SoftSkillQuestion)) :
    (mkSoftSkillsQuiz u none).questions = load_default_questions ∧
    (mkSoftSkillsQuiz u (some [])).questions = load_default_questions ∧
    1 ≤ (mkSoftSkillsQuiz u oqs).questions.length ∧
    max_score (mkSoftSkillsQuiz u none) = 70 := by
  refine ⟨rfl, rfl, ?_, rfl⟩
  cases oqs with
  | none =>
    show 1 ≤ load_default_questions.length
    decide
  | some qs =>
    cases qs with
    | nil =>
      show 1 ≤ load_default_questions.length
      decide
    | cons q t =>
      show 1 ≤ (q :: t).length
      simp
